import Mathlib

/-!
Shallow embedding of `src/main.py` of the wordpress-data-extractor
(a Streamlit tool that pulls published posts, categories and tags from a
WordPress REST API and flattens them into CSV rows).

The HTTP world is modelled as oracle functions: a page world maps a page
number to the reply the server gives for that page, a media world maps a
request URL to the reply of the media endpoint.  Every embedded operation
also returns the list of requests it issued, so request-count properties
are statable.  The unbounded `while True` pagination loop is embedded with
explicit fuel; `FetchOutcome.fuelOut` is the artifact of running out of
fuel and every theorem about the loop supplies enough fuel.
-/

namespace WPExtract

/-- Value of a run of digits, as Python `int` reads them: `none` unless the
character list is non-empty and all decimal digits. -/
def digitsVal (cs : List Char) : Option Nat :=
  if cs.isEmpty then none
  else if cs.all Char.isDigit then
    some (cs.foldl (fun acc c => acc * 10 + (c.toNat - 48)) 0)
  else none

/-- Model of the Python built-in `int()` applied to a string (as in
`int(response.headers.get('X-WP-TotalPages', 1))` when the header is
present): surrounding whitespace is stripped, an optional single sign is
allowed, the rest must be decimal digits; `none` models the `ValueError`
that `int()` raises otherwise.  (Underscore digit separators are not
modelled; no claim depends on them.) -/
def pyStrToInt? (s : String) : Option Int :=
  let cs := ((s.toList.dropWhile Char.isWhitespace).reverse.dropWhile
      Char.isWhitespace).reverse
  match cs with
  | [] => none
  | c :: rest =>
    if c = '-' then (digitsVal rest).map (fun n => -(n : Int))
    else if c = '+' then (digitsVal rest).map (fun n => (n : Int))
    else (digitsVal cs).map (fun n => (n : Int))

/-- Reply of the server to one page request of `fetch_all_pages`
(`session.get(base_url, params=params, timeout=30)`): either a
`requests.exceptions.RequestException` or a response carrying a status
code, a JSON array body (the items, of abstract type `α`) and an optional
`X-WP-TotalPages` header value. -/
inductive PageReply (α : Type) where
  | exn (msg : String)
  | resp (status : Nat) (body : List α) (totalPagesHeader : Option String)
deriving Repr, DecidableEq

/-- Result of `fetch_all_pages`: `done` is a normal return carrying
`all_items` and the page numbers requested, in order; `raised` is an
uncaught exception (the `ValueError` of `int()` on a malformed
`X-WP-TotalPages` header escapes the `except RequestException` handler, so
no list is returned), again with the pages requested; `fuelOut` is the
fuel artifact. -/
inductive FetchOutcome (α : Type) where
  | done (all_items : List α) (requestedPages : List Nat)
  | raised (requestedPages : List Nat)
  | fuelOut
deriving Repr, DecidableEq

/-- Evaluation of `int(response.headers.get('X-WP-TotalPages', 1))`: an
absent header yields the default `1` (already an `int`); a present header
value goes through `int()` on its string, where `none` models the raised
`ValueError`. -/
def headerTotalPages (hdr : Option String) : Option Int :=
  match hdr with
  | none => some 1
  | some s => pyStrToInt? s

/-- Body of the `while True` loop of `fetch_all_pages` (src/main.py lines
41-61), one constructor-level step per iteration: record the request for
`page`; on a request exception, `st.error` and `break` (return the
accumulated list); on status 200, extend `all_items` with the page body,
read the total-page header (a malformed header raises out of the
function), `break` once `page >= total_pages`, else continue with
`page + 1`; on any other status, `st.error` and `break`. -/
def fetchPages {α : Type} (world : Nat → PageReply α) :
    Nat → Nat → List α → List Nat → FetchOutcome α
  | 0, _, _, _ => .fuelOut
  | fuel + 1, page, all_items, reqs =>
    match world page with
    | .exn _ => .done all_items (reqs ++ [page])
    | .resp status body hdr =>
      if status = 200 then
        match headerTotalPages hdr with
        | none => .raised (reqs ++ [page])
        | some total_pages =>
          if (page : Int) ≥ total_pages then
            .done (all_items ++ body) (reqs ++ [page])
          else
            fetchPages world fuel (page + 1) (all_items ++ body) (reqs ++ [page])
      else .done all_items (reqs ++ [page])

/-- Embedding of `fetch_all_pages` (src/main.py lines 36-63): start at
page 1 with an empty accumulator. -/
def fetch_all_pages {α : Type} (world : Nat → PageReply α) (fuel : Nat) :
    FetchOutcome α :=
  fetchPages world fuel 1 [] []

/-- Failure of one page request as the loop sees it: a request exception,
or a response whose status is not 200. -/
def PageReply.isFailure {α : Type} : PageReply α → Prop
  | .exn _ => True
  | .resp status _ _ => status ≠ 200

/-- Entry of the embedded `_embedded['wp:featuredmedia']` list of a post:
a JSON object whose `source_url` key may be absent. -/
structure MediaEntry where
  source_url : Option String
deriving Repr, DecidableEq

/-- Post record as `main` reads it: every access in the source is a
`dict.get` with a default, so each field is optional.  `title` and
`content` are flattened to their `rendered` member, the only one read
(`post.get('title', {}).get('rendered', '')`).  `featured_media` is
`none` when the key is absent; the value `0` is falsy in Python exactly
like an absent key. -/
structure Post where
  link : Option String
  title_rendered : Option String
  content_rendered : Option String
  featured_media : Option Nat
  embedded_featuredmedia : List MediaEntry
  categories : Option (List Nat)
  tags : Option (List Nat)
deriving Repr, DecidableEq

/-- Truthiness of `post.get('featured_media')`: an absent key gives
`None` (falsy) and the integer `0` is falsy. -/
def pyTruthyOptNat : Option Nat → Bool
  | none => false
  | some n => n ≠ 0

/-- Reply of the server to the fallback media request of `get_image_url`:
either a request exception or a status code together with the optional
`source_url` member of the JSON body (`media_data.get('source_url', '')`). -/
inductive MediaReply where
  | exn (msg : String)
  | resp (status : Nat) (source_url : Option String)
deriving Repr, DecidableEq

/-- URL built for the fallback media request,
`f"{base_site_url}/wp-json/wp/v2/media/{media_id}"`. -/
def mediaEndpointUrl (base_site_url : String) (media_id : Nat) : String :=
  base_site_url ++ "/wp-json/wp/v2/media/" ++ toString media_id

/-- Embedded-payload lookup of `get_image_url`: the check
`if embedded_media and 'source_url' in embedded_media[0]` together with
the read `embedded_media[0]['source_url']` — `some` exactly when the
embedded list is non-empty and its first entry carries the key. -/
def embeddedSourceUrl (post : Post) : Option String :=
  match post.embedded_featuredmedia with
  | entry :: _ => entry.source_url
  | [] => none

/-- Embedding of `get_image_url` (src/main.py lines 109-128).  Returns the
image URL together with the list of HTTP request URLs issued.  The falsy
check on `featured_media` guards everything; the embedded payload is used
when its first entry carries `source_url`; otherwise one fallback GET of
the media endpoint is issued, whose result is read only on status 200 and
whose request exception is caught as a warning, leaving `image_url = ''`. -/
def get_image_url (post : Post) (base_site_url : String)
    (world : String → MediaReply) : String × List String :=
  match post.featured_media with
  | none => ("", [])
  | some media_id =>
    if media_id = 0 then ("", [])
    else
      match embeddedSourceUrl post with
      | some u => (u, [])
      | none =>
        let media_url := mediaEndpointUrl base_site_url media_id
        match world media_url with
        | .exn _ => ("", [media_url])
        | .resp status src =>
          if status = 200 then (src.getD "", [media_url])
          else ("", [media_url])

/-- Category/tag name resolution of the row loop (src/main.py lines
198-214): start from the empty list, and only when the ID list is truthy
(non-empty) map each ID through `dict.get(id, 'Unknown')`; join with
`', '`. -/
def join_names (d : Nat → Option String) (ids : List Nat) : String :=
  let names : List String :=
    if ids.isEmpty then []
    else ids.map (fun i => (d i).getD "Unknown")
  String.intercalate ", " names

/-- Dictionary built by the comprehension
`{cat['id']: cat['name'] for cat in categories}` (src/main.py lines 91 and
104): later entries overwrite earlier ones with the same ID. -/
def buildDict (items : List (Nat × String)) : Nat → Option String :=
  items.foldl (fun d p => fun k => if k = p.1 then some p.2 else d k)
    (fun _ => none)

/-- Flat row assembled by the loop of `main` (src/main.py lines 179-216):
the four unconditional keys, plus `categories`/`tags` present (`some`)
exactly when the corresponding checkbox option is enabled. -/
structure Row where
  url : String
  title : String
  content : String
  image_url : String
  categories : Option String
  tags : Option String
deriving Repr, DecidableEq

/-- One iteration of the row loop of `main` for one post: extract
link/title/content with their defaults, resolve the image URL through
`get_image_url`, and attach joined category and tag names when the
options are enabled. -/
def build_row (categories_option tags_option : Bool)
    (category_dict tag_dict : Nat → Option String) (base_site_url : String)
    (world : String → MediaReply) (post : Post) : Row :=
  { url := post.link.getD ""
    title := post.title_rendered.getD ""
    content := post.content_rendered.getD ""
    image_url := (get_image_url post base_site_url world).1
    categories :=
      if categories_option then
        some (join_names category_dict (post.categories.getD []))
      else none
    tags :=
      if tags_option then some (join_names tag_dict (post.tags.getD []))
      else none }

/-- Row loop of `main` over the whole posts list, one appended row per
post, in order. -/
def build_rows (categories_option tags_option : Bool)
    (category_dict tag_dict : Nat → Option String) (base_site_url : String)
    (world : String → MediaReply) (posts : List Post) : List Row :=
  posts.map
    (build_row categories_option tags_option category_dict tag_dict
      base_site_url world)

/-- Result of `urlparse` as `validate_wordpress_site` reads it: `urlparse`
never raises on a string, it returns components that may be empty, and
the source tests the truthiness (non-emptiness) of `scheme` and `netloc`. -/
structure ParsedUrl where
  scheme : String
  netloc : String
deriving Repr, DecidableEq

/-- Reply to the single probing GET of `validate_wordpress_site`. -/
inductive HttpReply where
  | exn (msg : String)
  | resp (status : Nat)
deriving Repr, DecidableEq

/-- REST API root URL built by the validator,
`f"{parsed_url.scheme}://{parsed_url.netloc}/wp-json/"`. -/
def wpJsonRootUrl (p : ParsedUrl) : String :=
  p.scheme ++ "://" ++ p.netloc ++ "/wp-json/"

/-- Embedding of `validate_wordpress_site` (src/main.py lines 16-33).
Returns the `(ok, message)` pair of the source together with the list of
request URLs issued (the source calls plain `requests.get` once, with no
retry adapter). -/
def validate_wordpress_site (parsed : ParsedUrl)
    (world : String → HttpReply) : (Bool × String) × List String :=
  if parsed.scheme = "" ∨ parsed.netloc = "" then
    ((false,
      "Invalid URL format. Please include the scheme (http:// or https://)."),
      [])
  else
    let api_url := wpJsonRootUrl parsed
    match world api_url with
    | .resp status =>
      if status = 200 then ((true, ""), [api_url])
      else
        ((false, "REST API returned status code " ++ toString status ++ "."),
          [api_url])
    | .exn e =>
      ((false, "Could not connect to the REST API: " ++ e), [api_url])

/-- Retry budget configured in `main`: `Retry(total=3, ...)`
(src/main.py line 150). -/
def retry_total : Nat := 3

/-- Backoff factor configured in `main`: `backoff_factor=1`. -/
def backoff_factor : Nat := 1

/-- Status codes that trigger a transport retry:
`status_forcelist=[429, 500, 502, 503, 504]`. -/
def status_forcelist : List Nat := [429, 500, 502, 503, 504]

/-- Raw outcome of one low-level attempt of the mounted adapter. -/
inductive Attempt where
  | exn (msg : String)
  | resp (status : Nat)
deriving Repr, DecidableEq

/-- Modelled from the spec: the urllib3 `Retry` transport that `main`
mounts on the shared session (src/main.py lines 149-153).  The retry
machinery itself lives in the external urllib3 library; only its
configuration (`retry_total`, `backoff_factor`, `status_forcelist`) is in
the source.  Per the spec, a response whose status is in the forcelist is
retried while retries remain, with exponential backoff
`backoff_factor * 2^(k-1)` before the k-th retry (1s, 2s, 4s); the loop
takes the sequence of raw per-attempt outcomes and returns the outcome
the caller sees, the number of attempts consumed, and the backoff delays
slept.  Exhausted retries surface as a request exception to the caller. -/
def transportLoop (attempts : Nat → Attempt) :
    Nat → Nat → List Nat → Attempt × Nat × List Nat
  | retriesLeft, i, delays =>
    match attempts i with
    | .exn m => (.exn m, i + 1, delays)
    | .resp s =>
      if s ∈ status_forcelist then
        match retriesLeft with
        | 0 => (.exn "Max retries exceeded", i + 1, delays)
        | r + 1 =>
          transportLoop attempts r (i + 1)
            (delays ++ [backoff_factor * 2 ^ (retry_total - (r + 1))])
      else (.resp s, i + 1, delays)

/-- Modelled from the spec: one GET through the shared session,
i.e. `transportLoop` started with the configured retry budget. -/
def transportGet (attempts : Nat → Attempt) : Attempt × Nat × List Nat :=
  transportLoop attempts retry_total 0 []

/-- Page world seen by `fetch_all_pages` when every page request travels
through the retrying transport: `raw page` is the per-attempt outcome
sequence for that page, and the body/header of the page are attached to
the final status the transport reports. -/
def sessionPageWorld {α : Type} (raw : Nat → Nat → Attempt)
    (body : Nat → List α) (hdr : Nat → Option String) :
    Nat → PageReply α :=
  fun page =>
    match (transportGet (raw page)).1 with
    | .exn m => .exn m
    | .resp s => .resp s (body page) (hdr page)

/-- Checkbox options of `main` (src/main.py lines 138-139). -/
structure Options where
  categories_option : Bool
  tags_option : Bool
deriving Repr, DecidableEq

/-- HTTP behaviour of the site for one run: one page world per paginated
resource (category and tag items are read only through `cat['id']` and
`cat['name']`, so they are embedded as ID/name pairs) and the media
endpoint world. -/
structure SiteWorld where
  postPages : Nat → PageReply Post
  categoryPages : Nat → PageReply (Nat × String)
  tagPages : Nat → PageReply (Nat × String)
  mediaGet : String → MediaReply

/-- Outcome of the fetch-and-build part of `main`: `runError` is the
generic `except Exception` catch-all (src/main.py lines 235-236) that
aborts the run, `noArticles` the early return on an empty posts list,
`rows` the assembled row list handed to the exporter. -/
inductive RunResult where
  | runError
  | noArticles
  | rows (rs : List Row)
deriving Repr, DecidableEq

/-- Embedding of the fetch-and-build pipeline inside the `try` block of
`main` (src/main.py lines 156-233): fetch all posts (an escaped exception
hits the catch-all), return early when no posts, fetch the category and
tag dictionaries when the options are enabled (empty dictionaries
otherwise), then run the row loop. -/
def runPipeline (W : SiteWorld) (opts : Options) (base_site_url : String)
    (fuel : Nat) : RunResult :=
  match fetch_all_pages W.postPages fuel with
  | .fuelOut => .runError
  | .raised _ => .runError
  | .done posts _ =>
    if posts.isEmpty then .noArticles
    else
      match
        (if opts.categories_option then
          fetch_all_pages W.categoryPages fuel
        else .done [] []) with
      | .fuelOut => .runError
      | .raised _ => .runError
      | .done cats _ =>
        match
          (if opts.tags_option then fetch_all_pages W.tagPages fuel
          else .done [] []) with
        | .fuelOut => .runError
        | .raised _ => .runError
        | .done tagItems _ =>
          .rows
            (build_rows opts.categories_option opts.tags_option
              (buildDict cats) (buildDict tagItems) base_site_url
              W.mediaGet posts)

/-- Post with every optional key absent, used as a concrete item. -/
def emptyPost : Post :=
  { link := none, title_rendered := none, content_rendered := none,
    featured_media := none, embedded_featuredmedia := [], categories := none,
    tags := none }

/-- Page reply that lets the pagination loop continue past page `p` having
delivered `items`: a 200 response whose total-page header parses to a
total strictly greater than `p`. -/
def continuesPast {α : Type} (r : PageReply α) (p : Nat) (items : List α) :
    Prop :=
  ∃ hdr t, r = .resp 200 items (some hdr) ∧ pyStrToInt? hdr = some t ∧
    (p : Int) < t

theorem fetchPages_const {α : Type} (world : Nat → PageReply α)
    (itemsOf : Nat → List α) (hdr : String) (N : Nat)
    (hw : ∀ p, world p = .resp 200 (itemsOf p) (some hdr))
    (hh : pyStrToInt? hdr = some (N : Int)) :
    ∀ fuel page acc reqs, 1 ≤ page → page ≤ N → N - page < fuel →
      fetchPages world fuel page acc reqs =
        .done (acc ++ (List.range' page (N + 1 - page)).flatMap itemsOf)
          (reqs ++ List.range' page (N + 1 - page)) := by
  intro fuel
  induction fuel with
  | zero => intro page acc reqs h1 h2 h3; omega
  | succ f ih =>
    intro page acc reqs h1 h2 h3
    rw [fetchPages, hw page]
    simp only [headerTotalPages, hh]
    rw [if_pos trivial]
    by_cases hpN : page < N
    · rw [if_neg (show ¬((page : Int) ≥ (N : Int)) from by omega)]
      rw [ih (page + 1) (acc ++ itemsOf page) (reqs ++ [page]) (by omega)
        (by omega) (by omega)]
      rw [show N + 1 - page = (N - page) + 1 from by omega,
        show N + 1 - (page + 1) = N - page from by omega, List.range'_succ]
      simp [List.flatMap_cons, List.append_assoc]
    · have hpe : page = N := by omega
      rw [if_pos (show (page : Int) ≥ (N : Int) from by omega)]
      rw [show N + 1 - page = 1 from by omega, hpe]
      simp [List.range'_succ]

theorem fetchPages_failAt {α : Type} (world : Nat → PageReply α)
    (itemsOf : Nat → List α) (k : Nat)
    (hw : ∀ p, 1 ≤ p → p < k → continuesPast (world p) p (itemsOf p))
    (hfail : (world k).isFailure) :
    ∀ fuel page acc reqs, 1 ≤ page → page ≤ k → k - page < fuel →
      fetchPages world fuel page acc reqs =
        .done (acc ++ (List.range' page (k - page)).flatMap itemsOf)
          (reqs ++ List.range' page (k + 1 - page)) := by
  intro fuel
  induction fuel with
  | zero => intro page acc reqs h1 h2 h3; omega
  | succ f ih =>
    intro page acc reqs h1 h2 h3
    by_cases hpk : page < k
    · obtain ⟨hdr, t, hwp, hht, hlt⟩ := hw page h1 hpk
      rw [fetchPages, hwp]
      simp only [headerTotalPages, hht]
      rw [if_pos trivial]
      rw [if_neg (show ¬((page : Int) ≥ t) from by omega)]
      rw [ih (page + 1) (acc ++ itemsOf page) (reqs ++ [page]) (by omega)
        (by omega) (by omega)]
      rw [show k - page = (k - (page + 1)) + 1 from by omega,
        show k + 1 - page = (k + 1 - (page + 1)) + 1 from by omega,
        List.range'_succ, List.range'_succ]
      have : k - (page + 1) + 1 - 1 = k - (page + 1) := by omega
      simp [List.flatMap_cons, List.append_assoc,
        show k + 1 - (page + 1) = k - page from by omega,
        show k - (page + 1) = k - page - 1 from by omega]
    · have hpe : page = k := by omega
      subst hpe
      rw [fetchPages]
      rcases hwk : world page with m | ⟨s, b, h⟩
      · simp [show page - page = 0 from by omega,
          show page + 1 - page = 1 from by omega, List.range'_succ]
      · rw [hwk] at hfail
        simp only [PageReply.isFailure] at hfail
        simp [hfail, show page - page = 0 from by omega,
          show page + 1 - page = 1 from by omega, List.range'_succ]

/-- C1: when every page response has status 200, a JSON array body and a
total-pages header parsing to the constant value `N ≥ 1`, `fetch_all_pages`
issues exactly `N` page requests with the page parameter running from 1 to
`N`, returns the concatenation of the `N` per-page item arrays (preserving
inter-page and intra-page order), and the result length is the sum of the
per-page item counts. -/
theorem c1_fetch_all_pages_paginates {α : Type} (world : Nat → PageReply α)
    (itemsOf : Nat → List α) (hdr : String) (N fuel : Nat)
    (hw : ∀ p, world p = .resp 200 (itemsOf p) (some hdr))
    (hh : pyStrToInt? hdr = some (N : Int))
    (hN : 1 ≤ N) (hfuel : N ≤ fuel) :
    fetch_all_pages world fuel =
      .done ((List.range' 1 N).flatMap itemsOf) (List.range' 1 N) ∧
    (List.range' 1 N).length = N ∧
    ((List.range' 1 N).flatMap itemsOf).length =
      ((List.range' 1 N).map (fun p => (itemsOf p).length)).sum := by
  refine ⟨?_, List.length_range' 1 1 N, ?_⟩
  · have h := fetchPages_const world itemsOf hdr N hw hh fuel 1 [] []
      (le_refl 1) hN (by omega)
    simpa [fetch_all_pages, show N + 1 - 1 = N from by omega] using h
  · rw [List.length_flatMap]
    rfl

/-- Witness for C1 at a concrete 3-page world with two items per page. -/
theorem c1_witness :
    fetch_all_pages (fun p => PageReply.resp 200 [p, p + 100] (some "3")) 3 =
      .done [1, 101, 2, 102, 3, 103] [1, 2, 3] := by
  have h := c1_fetch_all_pages_paginates
    (fun p => PageReply.resp 200 [p, p + 100] (some "3"))
    (fun p => [p, p + 100]) "3" 3 3 (fun p => rfl) (by decide) (by decide)
    (le_refl 3)
  exact h.1

/-- C2: when pages 1 to k-1 each succeed with a total-page header that
keeps the loop going and the request for page k fails (non-200 status or
request exception), `fetch_all_pages` issues exactly the requests for
pages 1 to k (none further), and returns — rather than raises — exactly
the items accumulated from the pages before the failure. -/
theorem c2_stops_on_failure {α : Type} (world : Nat → PageReply α)
    (itemsOf : Nat → List α) (k fuel : Nat) (hk : 1 ≤ k)
    (hw : ∀ p, 1 ≤ p → p < k → continuesPast (world p) p (itemsOf p))
    (hfail : (world k).isFailure) (hfuel : k ≤ fuel) :
    fetch_all_pages world fuel =
      .done ((List.range' 1 (k - 1)).flatMap itemsOf) (List.range' 1 k) := by
  have h := fetchPages_failAt world itemsOf k hw hfail fuel 1 [] []
    (le_refl 1) hk (by omega)
  simpa [fetch_all_pages, show k + 1 - 1 = k from by omega] using h

/-- Witness for C2: page 1 succeeds announcing 5 total pages, page 2
answers 500; the fetcher returns page 1's items having requested pages 1
and 2 only. -/
theorem c2_witness :
    fetch_all_pages
      (fun p => if p = 1 then PageReply.resp 200 [10] (some "5")
        else PageReply.resp 500 [] none) 2 =
      .done [10] [1, 2] := by
  have h := c2_stops_on_failure
    (fun p => if p = 1 then PageReply.resp 200 [10] (some "5")
      else PageReply.resp 500 [] none)
    (fun _ => [10]) 2 2 (by decide)
    (fun p h1 h2 => by
      have hp : p = 1 := by omega
      subst hp
      exact ⟨"5", 5, rfl, by decide, by decide⟩)
    (by decide : (500 : Nat) ≠ 200) (le_refl 2)
  simpa using h

/-- C7: when the first page response succeeds with no total-pages header,
the total defaults to 1 and `fetch_all_pages` issues exactly one page
request, returning that single page's items. -/
theorem c7_missing_header_single_page {α : Type} (world : Nat → PageReply α)
    (items : List α) (fuel : Nat)
    (hw : world 1 = .resp 200 items none) (hfuel : 1 ≤ fuel) :
    fetch_all_pages world fuel = .done items [1] := by
  obtain ⟨f, rfl⟩ : ∃ f, fuel = f + 1 := ⟨fuel - 1, by omega⟩
  rw [fetch_all_pages, fetchPages, hw]
  simp [headerTotalPages]

/-- Witness for C7 at a concrete single-page world. -/
theorem c7_witness :
    fetch_all_pages (fun _ => PageReply.resp 200 [5, 6] none) 1 =
      .done [5, 6] [1] :=
  c7_missing_header_single_page (fun _ => PageReply.resp 200 [5, 6] none)
    [5, 6] 1 rfl (le_refl 1)

/-- C10: on a 200 page response whose total-pages header value "two" is
not parseable by `int()`, `fetch_all_pages` raises (the `ValueError` is
not a request exception, so it escapes the handler) instead of returning
the accumulated list, and the whole pipeline aborts through `main`'s
generic catch-all. -/
theorem c10_malformed_header_raises :
    fetch_all_pages (fun _ => PageReply.resp 200 [emptyPost] (some "two")) 3 =
      .raised [1] ∧
    runPipeline
      { postPages := fun _ => PageReply.resp 200 [emptyPost] (some "two")
        categoryPages := fun _ => PageReply.exn "down"
        tagPages := fun _ => PageReply.exn "down"
        mediaGet := fun _ => MediaReply.exn "down" }
      { categories_option := true, tags_option := true }
      "https://www.example.com" 3 = .runError := by
  constructor <;> rfl


theorem append_ne_empty_left (a b : String) (ha : a ≠ "") : a ++ b ≠ "" := by
  intro h
  apply ha
  have hl := congrArg String.length h
  rw [String.length_append] at hl
  have h0 : a.length = 0 := by
    have he : ("" : String).length = 0 := rfl
    omega
  cases a with
  | mk data =>
    cases data with
    | nil => rfl
    | cons c cs => simp [String.length] at h0

/-- C3: media-resolution precedence of `get_image_url`: with no (or a
zero, falsy) featured-media identifier the result is the empty string
with zero requests; with an embedded `source_url` that URL is returned
with zero requests; otherwise exactly one fallback GET of the media
endpoint URL is issued and a request exception or non-200 status leaves
the empty string. -/
theorem c3_media_resolution (post : Post) (base : String)
    (world : String → MediaReply) :
    (pyTruthyOptNat post.featured_media = false →
      get_image_url post base world = ("", [])) ∧
    (∀ m u, post.featured_media = some m → m ≠ 0 →
      embeddedSourceUrl post = some u →
      get_image_url post base world = (u, [])) ∧
    (∀ m, post.featured_media = some m → m ≠ 0 →
      embeddedSourceUrl post = none →
      (get_image_url post base world).2 = [mediaEndpointUrl base m] ∧
      (∀ msg, world (mediaEndpointUrl base m) = .exn msg →
        (get_image_url post base world).1 = "") ∧
      (∀ s su, world (mediaEndpointUrl base m) = .resp s su → s ≠ 200 →
        (get_image_url post base world).1 = "")) := by
  refine ⟨?_, ?_, ?_⟩
  · intro h
    rcases hfm : post.featured_media with _ | m
    · simp [get_image_url, hfm]
    · rw [hfm] at h
      simp only [pyTruthyOptNat, decide_eq_false_iff_not, not_not] at h
      simp [get_image_url, hfm, h]
  · intro m u hfm hm0 hemb
    simp [get_image_url, hfm, hm0, hemb]
  · intro m hfm hm0 hemb
    refine ⟨?_, ?_, ?_⟩
    · rcases hw : world (mediaEndpointUrl base m) with msg | ⟨s, su⟩
      · simp [get_image_url, hfm, hm0, hemb, hw]
      · by_cases hs : s = 200 <;> simp [get_image_url, hfm, hm0, hemb, hw, hs]
    · intro msg hw
      simp [get_image_url, hfm, hm0, hemb, hw]
    · intro s su hw hs
      simp [get_image_url, hfm, hm0, hemb, hw, hs]

/-- Witness for C3: a post with no featured media resolves to the empty
URL with no request; a post with embedded media resolves to the embedded
URL with no request. -/
theorem c3_witness :
    get_image_url emptyPost "https://s" (fun _ => MediaReply.exn "e") =
      ("", []) ∧
    get_image_url
      { emptyPost with
        featured_media := some 9
        embedded_featuredmedia := [{ source_url := some "https://img" }] }
      "https://s" (fun _ => MediaReply.exn "e") = ("https://img", []) := by
  refine ⟨(c3_media_resolution emptyPost "https://s" _).1 rfl, ?_⟩
  exact (c3_media_resolution _ "https://s" _).2.1 9 "https://img" rfl
    (by decide) rfl

/-- C4: ID-to-name resolution of the row loop: the joined string maps
each ID through the dictionary in the order of the post's ID list (a
present ID to its fetched name, an absent ID to the literal "Unknown"),
joined with ", ", and an empty ID list yields the empty string. -/
theorem c4_id_resolution (d : Nat → Option String) (ids : List Nat) :
    join_names d ids =
      String.intercalate ", " (ids.map fun i => (d i).getD "Unknown") ∧
    (∀ i, i ∈ ids → ∀ n, d i = some n → (d i).getD "Unknown" = n) ∧
    (∀ i, i ∈ ids → d i = none → (d i).getD "Unknown" = "Unknown") ∧
    join_names d [] = "" := by
  refine ⟨?_, ?_, ?_, rfl⟩
  · cases ids with
    | nil => rfl
    | cons a l => rfl
  · intro i hi n hn
    rw [hn]
    rfl
  · intro i hi hn
    rw [hn]
    rfl

/-- Witness for C4 on a two-entry dictionary: the known IDs 1 and 2
resolve to their names, the unknown ID 3 to "Unknown", in list order. -/
theorem c4_witness :
    join_names (buildDict [(1, "News"), (2, "Tech")]) [1, 3, 2] =
      "News, Unknown, Tech" ∧
    (buildDict [(1, "News"), (2, "Tech")] 1).getD "Unknown" = "News" ∧
    join_names (buildDict [(1, "News"), (2, "Tech")]) [] = "" := by
  have h := c4_id_resolution (buildDict [(1, "News"), (2, "Tech")]) [1, 3, 2]
  exact ⟨h.1.trans (by decide), h.2.1 1 (by decide) "News" rfl, h.2.2.2⟩

/-- C5: the row loop produces exactly one row per post in input order,
and a row carries a categories (resp. tags) entry exactly when the
corresponding option is enabled. -/
theorem c5_row_loop (categories_option tags_option : Bool)
    (category_dict tag_dict : Nat → Option String) (base : String)
    (world : String → MediaReply) (posts : List Post)
    (_hne : posts ≠ []) :
    (build_rows categories_option tags_option category_dict tag_dict base
      world posts).length = posts.length ∧
    (∀ i, ∀ hi : i < posts.length,
      ∀ hi2 : i < (build_rows categories_option tags_option category_dict
        tag_dict base world posts).length,
      (build_rows categories_option tags_option category_dict tag_dict base
        world posts)[i] =
        build_row categories_option tags_option category_dict tag_dict base
          world posts[i]) ∧
    (∀ post,
      (build_row categories_option tags_option category_dict tag_dict base
        world post).categories.isSome = categories_option ∧
      (build_row categories_option tags_option category_dict tag_dict base
        world post).tags.isSome = tags_option) := by
  refine ⟨by simp [build_rows], ?_, ?_⟩
  · intro i hi hi2
    simp [build_rows]
  · intro post
    cases categories_option <;> cases tags_option <;> simp [build_row]

/-- Witness for C5 on a one-post list with categories enabled and tags
disabled. -/
theorem c5_witness :
    (build_rows true false (fun _ => none) (fun _ => none) "b"
      (fun _ => MediaReply.exn "") [emptyPost]).length = 1 ∧
    (build_row true false (fun _ => none) (fun _ => none) "b"
      (fun _ => MediaReply.exn "") emptyPost).categories.isSome = true ∧
    (build_row true false (fun _ => none) (fun _ => none) "b"
      (fun _ => MediaReply.exn "") emptyPost).tags.isSome = false := by
  have h := c5_row_loop true false (fun _ => none) (fun _ => none) "b"
    (fun _ => MediaReply.exn "") [emptyPost] (by simp)
  exact ⟨h.1, (h.2.2 emptyPost).1, (h.2.2 emptyPost).2⟩

/-- C6: `validate_wordpress_site` succeeds exactly when the URL has a
non-empty scheme and host and the single GET of the REST root returns
status 200; every failure carries a non-empty message; at most one
request is issued (no retry). -/
theorem c6_validate_wordpress_site (parsed : ParsedUrl)
    (world : String → HttpReply) :
    ((validate_wordpress_site parsed world).1.1 = true ↔
      parsed.scheme ≠ "" ∧ parsed.netloc ≠ "" ∧
        world (wpJsonRootUrl parsed) = .resp 200) ∧
    ((validate_wordpress_site parsed world).1.1 = false →
      (validate_wordpress_site parsed world).1.2 ≠ "") ∧
    (validate_wordpress_site parsed world).2.length ≤ 1 := by
  by_cases hbad : parsed.scheme = "" ∨ parsed.netloc = ""
  · refine ⟨?_, ?_, ?_⟩
    · rcases hbad with h | h <;> simp [validate_wordpress_site, h]
    · intro hfalse
      rcases hbad with h | h <;> simp [validate_wordpress_site, h]
    · rcases hbad with h | h <;> simp [validate_wordpress_site, h]
  · have hcond : ¬(parsed.scheme = "" ∨ parsed.netloc = "") := hbad
    push_neg at hbad
    rcases hw : world (wpJsonRootUrl parsed) with msg | s
    · refine ⟨?_, ?_, ?_⟩
      · simp [validate_wordpress_site, hcond, hw]
      · intro hfalse
        simp only [validate_wordpress_site, hcond, if_neg, hw]
        exact append_ne_empty_left _ _ (by decide)
      · simp [validate_wordpress_site, hcond, hw]
    · by_cases hs : s = 200
      · subst hs
        refine ⟨?_, ?_, ?_⟩
        · simp [validate_wordpress_site, hcond, hw]
          tauto
        · intro hfalse
          simp [validate_wordpress_site, hcond, hw] at hfalse
        · simp [validate_wordpress_site, hcond, hw]
      · refine ⟨?_, ?_, ?_⟩
        · simp [validate_wordpress_site, hcond, hw, hs]
        · intro hfalse
          simp only [validate_wordpress_site, hcond, if_neg, hw]
          rw [if_neg hs]
          exact append_ne_empty_left _ _
            (append_ne_empty_left _ _ (by decide))
        · simp [validate_wordpress_site, hcond, hw, hs]

/-- Witness for C6: a well-formed URL whose REST root answers 200
validates successfully. -/
theorem c6_witness :
    (validate_wordpress_site { scheme := "https", netloc := "example.com" }
      (fun _ => HttpReply.resp 200)).1.1 = true := by
  have h := c6_validate_wordpress_site
    { scheme := "https", netloc := "example.com" }
    (fun _ => HttpReply.resp 200)
  exact h.1.mpr ⟨by decide, by decide, rfl⟩



theorem transportLoop_attempts_le (attempts : Nat → Attempt) :
    ∀ r i d, (transportLoop attempts r i d).2.1 ≤ i + r + 1 := by
  intro r
  induction r with
  | zero =>
    intro i d
    rw [transportLoop]
    rcases attempts i with m | s
    · simp
    · by_cases hs : s ∈ status_forcelist <;> simp [hs]
  | succ rr ih =>
    intro i d
    rw [transportLoop]
    rcases attempts i with m | s
    · simp
    · by_cases hs : s ∈ status_forcelist
      · simp only [hs, if_pos]
        have h := ih (i + 1)
          (d ++ [backoff_factor * 2 ^ (retry_total - (rr + 1))])
        omega
      · simp [hs]

theorem transportLoop_delays_exponential (attempts : Nat → Attempt) :
    ∀ r i d, d.length + r = retry_total →
      d = (List.range d.length).map (fun k => backoff_factor * 2 ^ k) →
      (transportLoop attempts r i d).2.2 =
        (List.range (transportLoop attempts r i d).2.2.length).map
          (fun k => backoff_factor * 2 ^ k) := by
  intro r
  induction r with
  | zero =>
    intro i d hlen hd
    rw [transportLoop]
    rcases attempts i with m | s
    · simpa using hd
    · by_cases hs : s ∈ status_forcelist <;> simpa [hs] using hd
  | succ rr ih =>
    intro i d hlen hd
    rw [transportLoop]
    rcases attempts i with m | s
    · simpa using hd
    · by_cases hs : s ∈ status_forcelist
      · simp only [hs, if_pos]
        have hnew : retry_total - (rr + 1) = d.length := by omega
        apply ih (i + 1)
        · simp; omega
        · rw [hnew]
          conv_lhs => rw [hd]
          simp [List.range_succ]
      · simpa [hs] using hd

/-- C8: requests through the shared session are retried at transport
level: at most `retry_total = 3` retries happen (at most 4 attempts);
the backoff delays slept are exponential, `backoff_factor * 2^k` before
the (k+1)-th retry; and a page request answered 503 twice and then 200
reaches `fetch_all_pages` as a successful page, accumulated with no
error surfaced. -/
theorem c8_transport_retry :
    (∀ attempts, (transportGet attempts).2.1 ≤ retry_total + 1) ∧
    (∀ attempts,
      (transportGet attempts).2.2 =
        (List.range (transportGet attempts).2.2.length).map
          (fun k => backoff_factor * 2 ^ k)) ∧
    transportGet (fun i => if i ≤ 1 then .resp 503 else .resp 200) =
      (.resp 200, 3, [1, 2]) ∧
    fetch_all_pages
      (sessionPageWorld
        (fun _ i => if i ≤ 1 then .resp 503 else .resp 200)
        (fun _ => [42]) (fun _ => none)) 1 =
      .done [42] [1] := by
  refine ⟨?_, ?_, by decide, by decide⟩
  · intro attempts
    have h := transportLoop_attempts_le attempts retry_total 0 []
    simpa [transportGet] using h
  · intro attempts
    exact transportLoop_delays_exponential attempts retry_total 0 []
      (by simp) (by simp)

/-- C9: the fetch-and-build pipeline is deterministic in the HTTP
responses and options: two runs against the same unchanged site world
yield identical results (identical rows in identical order). -/
theorem c9_pipeline_deterministic (W : SiteWorld) (opts : Options)
    (base : String) (fuel : Nat) (r1 r2 : RunResult)
    (h1 : runPipeline W opts base fuel = r1)
    (h2 : runPipeline W opts base fuel = r2) : r1 = r2 :=
  h1.symm.trans h2

/-- Witness for C9: a concrete double run on an empty site world. -/
theorem c9_witness :
    runPipeline
      { postPages := fun _ => PageReply.resp 200 [] (some "1")
        categoryPages := fun _ => PageReply.resp 200 [] (some "1")
        tagPages := fun _ => PageReply.resp 200 [] (some "1")
        mediaGet := fun _ => MediaReply.exn "" }
      { categories_option := true, tags_option := true }
      "https://www.example.com" 1 = .noArticles :=
  c9_pipeline_deterministic
    { postPages := fun _ => PageReply.resp 200 [] (some "1")
      categoryPages := fun _ => PageReply.resp 200 [] (some "1")
      tagPages := fun _ => PageReply.resp 200 [] (some "1")
      mediaGet := fun _ => MediaReply.exn "" }
    { categories_option := true, tags_option := true }
    "https://www.example.com" 1 _ .noArticles rfl rfl


end WPExtract
